import Mathlib

/-!
Verification development for the NumberOne_OWU filter plugins.

The repository implements three message-enrichment "filters" around a chat
model call: a web-search augmentation filter (src/pipelines/perplexity_search.py),
two variants of a long-term-memory filter (src/pipelines/mem0_memory_filter.py and
src/pipelines/mem0_memory_filter_pipeline.py), and an observability filter
(src/pipelines/langfuse_tracking.py).  Each filter exposes an inbound hook
(`inlet`) and, for some filters, an outbound hook (`outlet`) over a message
envelope `body : dict` and an optional user record.

This file is a shallow embedding of those hooks.  External collaborators
(the Perplexity HTTP API, the mem0 vector store, the Langfuse client) are
modelled by explicit oracle parameters describing the outcome of the external
call; Python exceptions are modelled with `Except`/`Option`; Python floats are
embedded as exact rationals; the per-instance mutable attributes of each
Pipeline object are modelled as explicit state records threaded through the
hooks.
-/

namespace NumberOneOWU

/-! ## Data model

A chat message and the message envelope.  The envelope (`body`) in the source
is a Python dict; we model the fields that the filters read: the `messages`
list, the `conversation_id` / `chat_id` keys used by the observability filter,
and the `model` name.  An absent key is `none`. -/

structure Message where
  role : String
  content : String
deriving DecidableEq, Repr

structure Body where
  messages : List Message := []
  conversation_id : Option String := none
  chat_id : Option String := none
  model : Option String := none
deriving DecidableEq, Repr

/-- The user record passed to the hooks (`user : Optional[dict]`); the filters
read the `id`, `email` and `username` keys.  An absent key is `none`. -/
structure User where
  id : Option String := none
  email : Option String := none
  username : Option String := none
deriving DecidableEq, Repr

/-! ## Generic helpers: association lists and strings

Python dicts keyed by strings are modelled as association lists with
first-match lookup; `insertKV` overwrites (as dict assignment does) and
`eraseKV` removes a key (as `del` does). -/

def lookupKV {α : Type} : List (String × α) → String → Option α
  | [], _ => none
  | (k', v) :: rest, k => if k' == k then some v else lookupKV rest k

def eraseKV {α : Type} : List (String × α) → String → List (String × α)
  | [], _ => []
  | (k', v) :: rest, k => if k' == k then eraseKV rest k else (k', v) :: eraseKV rest k

def insertKV {α : Type} (l : List (String × α)) (k : String) (v : α) : List (String × α) :=
  (k, v) :: eraseKV l k

/-- Does list `l` start with the list `p`? (used for substring scanning). -/
def listStartsWith : List Char → List Char → Bool
  | _, [] => true
  | [], _ :: _ => false
  | b :: ls, a :: ps => a == b && listStartsWith ls ps

/-- Python's `pat in s` substring test. -/
def listHasSub : List Char → List Char → Bool
  | [], p => p.isEmpty
  | l@(_ :: rest), p => listStartsWith l p || listHasSub rest p

def strContains (s pat : String) : Bool :=
  listHasSub s.toList pat.toList

/-- Python's `str.lower()` (the source only ever lowers ASCII text). -/
def lowerStr (s : String) : String :=
  String.mk (s.toList.map Char.toLower)

/-- Drop leading whitespace from a character list (regex `\s*`). -/
def dropWsL (l : List Char) : List Char :=
  l.dropWhile (fun c => c.isWhitespace)

/-- Python's `str.strip()`: remove leading and trailing whitespace. -/
def trimStr (s : String) : String :=
  String.mk ((dropWsL (dropWsL s.toList).reverse).reverse)

/-! ## Search Augmentation Filter (src/pipelines/perplexity_search.py)

`Pipeline.Valves` of the search filter; only the options the modelled code
paths read are kept.  The request-building options (model name, temperature,
top_p, domain lists, recency filter) parameterize the external HTTP call,
which is modelled by an oracle, so they do not appear here. -/

structure SearchValves where
  perplexity_api_key : String := ""
  enable_auto_search : Bool := true
  enable_manual_search : Bool := true
  search_trigger_keywords : List String :=
    ["search", "find", "lookup", "what is", "who is", "when did",
     "where is", "how to", "latest", "recent", "current", "news",
     "today", "yesterday", "this week", "this month", "2024", "2025"]
  max_search_results : Nat := 5
  include_citations : Bool := true
  citation_format : String := "markdown"
deriving Repr

/-- The manual trigger substrings checked by `_should_perform_search` and
stripped (at the start of the query only) by `_clean_search_query`. -/
def manual_triggers : List String := ["search:", "web:", "find:", "lookup:"]

/-- Word characters for the regex `\b` boundary (`[A-Za-z0-9_]`; the inputs
this filter sees are ASCII). -/
def isWordChar (c : Char) : Bool := c.isAlphanum || c == '_'

/-- Right word boundary `\b`: the next character, if any, is not a word
character. -/
def wordBoundaryAfter (l : List Char) : Bool :=
  match l with
  | [] => true
  | c :: _ => !(isWordChar c)

/-- Match, at the current position, a regex of the shape
`w₁\s+w₂\s+...\s+wₙ\b` given as the word list `ws` (each `wᵢ` is a literal).
`\s+` is greedy, and since every word starts with a non-whitespace
character, consuming the maximal whitespace run is equivalent to regex
backtracking. -/
def matchWordsFrom (l : List Char) : List String → Bool
  | [] => wordBoundaryAfter l
  | [w] => listStartsWith l w.toList && wordBoundaryAfter (l.drop w.toList.length)
  | w :: ws =>
      listStartsWith l w.toList &&
      (let rest := l.drop w.toList.length
       (match rest with
        | c :: _ => c.isWhitespace
        | [] => false) &&
       matchWordsFrom (dropWsL rest) ws)

/-- Scan all positions of `l` for a match of `\bw₁\s+...\s+wₙ\b`.  The flag
`bnd` records whether a left word boundary holds at the current position
(true at the start of the string, and after any non-word character). -/
def scanWordsAux (ws : List String) : List Char → Bool → Bool
  | l, bnd =>
      (bnd && matchWordsFrom l ws) ||
      (match l with
       | [] => false
       | c :: rest => scanWordsAux ws rest (!(isWordChar c)))

/-- Python `re.search(pattern, s)` for the word-sequence patterns used by
`_should_perform_search`. -/
def reSearchWords (s : String) (ws : List String) : Bool :=
  scanWordsAux ws s.toList true

/-- The `question_patterns` list of `_should_perform_search`, each regex
rendered as its word sequence.  `\b202[4-9]\b` is expanded into the six
equivalent single-word alternatives 2024..2029. -/
def question_patterns : List (List String) :=
  [["what", "is"], ["who", "is"], ["when", "did"], ["where", "is"],
   ["how", "to"], ["why", "does"],
   ["latest"], ["recent"], ["current"], ["news"], ["today"],
   ["2024"], ["2025"], ["2026"], ["2027"], ["2028"], ["2029"]]

/-- Model of `Pipeline._should_perform_search` (perplexity_search.py lines 110-148):
manual triggers (substring test) first, then keywords (substring test), then
the question/recency regex patterns, short-circuiting on the first hit. -/
def should_perform_search (v : SearchValves) (message : String) : Bool :=
  if !v.enable_auto_search && !v.enable_manual_search then false
  else
    let ml := lowerStr message
    (v.enable_manual_search && manual_triggers.any (fun t => strContains ml t)) ||
    (v.enable_auto_search &&
      (v.search_trigger_keywords.any (fun k => strContains ml k) ||
       question_patterns.any (fun p => reSearchWords ml p)))

/-- Case-insensitive "starts with the (lowercase) literal `p`". -/
def startsWithCI (l : List Char) (p : String) : Bool :=
  listStartsWith (l.map Char.toLower) p.toList

/-- First substitution of `_clean_search_query`:
`re.sub(r'^(search:|web:|find:|lookup:)\s*', '', query, flags=IGNORECASE)`.
The pattern is anchored at the start of the string, so at most one
substitution happens, and only when the query begins with a trigger. -/
def stripTriggerAtStart (l : List Char) : List Char :=
  match manual_triggers.find? (fun p => startsWithCI l p) with
  | some p => dropWsL (l.drop p.toList.length)
  | none => l

def filler_starts : List String := ["can you", "could you", "please", "help me"]

/-- Second substitution of `_clean_search_query`:
`re.sub(r'^(can you|could you|please|help me)\s+', '', query, flags=IGNORECASE)`.
An alternative matches only when followed by at least one whitespace
character (`\s+`). -/
def stripFillerAtStart (l : List Char) : List Char :=
  match filler_starts.find? (fun p =>
      startsWithCI l p &&
      (match l.drop p.toList.length with
       | c :: _ => c.isWhitespace
       | [] => false)) with
  | some p => dropWsL (l.drop p.toList.length)
  | none => l

/-- Model of `Pipeline._clean_search_query` (perplexity_search.py lines 213-225):
strip a manual trigger at the start, then leading conversational filler,
truncate to 200 characters (appending "..."), and strip whitespace. -/
def clean_search_query (query : String) : String :=
  let l1 := stripFillerAtStart (stripTriggerAtStart query.toList)
  let l2 := if l1.length > 200 then l1.take 200 ++ "...".toList else l1
  String.mk ((dropWsL (dropWsL l2).reverse).reverse)

/-- Outcome of the external Perplexity API call on success: the response
content `result["choices"][0]["message"]["content"]` and the
`result.get("citations", [])` list. -/
structure SearchResult where
  content : String
  citations : List String
deriving DecidableEq, Repr

/-- Model of `Pipeline._format_search_results` (perplexity_search.py lines 227-245). -/
def format_search_results (v : SearchValves) (content : String) (citations : List String) : String :=
  if v.include_citations && !citations.isEmpty then
    if v.citation_format == "markdown" then
      content ++ "\n\n**Sources:**\n" ++
        String.join (((citations.take v.max_search_results).enum).map
          (fun p => toString (p.1 + 1) ++ ". " ++ p.2 ++ "\n"))
    else if v.citation_format == "numbered" then
      content ++ "\n\nSources:\n" ++
        String.join (((citations.take v.max_search_results).enum).map
          (fun p => "[" ++ toString (p.1 + 1) ++ "] " ++ p.2 ++ "\n"))
    else content
  else content

/-- The `search_context_template` valve applied to the formatted results: the
default template with `\x7bsearch_results\x7d` substituted. -/
def search_context_template (search_results : String) : String :=
  "Based on current web search results:\n\n" ++ search_results ++
    "\n\nNow, please answer the user's question using this information:"

/-- Python `list.insert(-1, m)`: insert before the last element (at position 0
when the list is empty). -/
def insertBeforeLast (ms : List Message) (m : Message) : List Message :=
  match ms.getLast? with
  | none => [m]
  | some lastM => ms.dropLast ++ [m, lastM]

/-- Model of `Pipeline._add_search_context` (perplexity_search.py lines 247-257):
wrap the formatted results in the context template and insert the new system
message before the last message of the transcript. -/
def add_search_context (ms : List Message) (search_results : String) : List Message :=
  insertBeforeLast ms { role := "system", content := search_context_template search_results }

/-- Model of `Pipeline.inlet` of the search filter (perplexity_search.py lines 82-108),
dict-typed body path.  `api` is the oracle for `_perform_search`: `none`
models a non-200 response or a transport error (the method returns `None`
and the transcript is left unmodified), `some r` a successful call whose
response is formatted by `_format_search_results`.  The inlet's
`if search_results:` truthiness test also skips insertion when the formatted
result is the empty string. -/
def perplexity_inlet (v : SearchValves) (body : Body) (api : Option SearchResult) : Body :=
  match body.messages.getLast? with
  | none => body
  | some lastMsg =>
    if should_perform_search v lastMsg.content && !(v.perplexity_api_key == "") then
      match api with
      | none => body
      | some r =>
          let formatted := format_search_results v r.content r.citations
          if formatted == "" then body
          else { body with messages := add_search_context body.messages formatted }
    else body

/-- Model of `Pipeline.outlet` of the search filter (perplexity_search.py lines
282-284): returns the body unchanged. -/
def perplexity_outlet (_v : SearchValves) (body : Body) : Body :=
  body

/-! ## Memory Enrichment Filter (src/pipelines/mem0_memory_filter.py)

The mem0/qdrant/ollama connection options of `Valves` parameterize the
external memory store, which is modelled by oracles, so only the options the
modelled control flow reads are kept. -/

structure MemValves where
  store_cycles : Nat := 3
  mem_zero_user : String := "bailey"
  enable_memory_storage : Bool := true
  enable_memory_retrieval : Bool := true
  max_memories_retrieved : Nat := 3
  memory_relevance_threshold : ℚ := 7/10
deriving Repr

/-- Mutable per-instance attributes of the memory filter `Pipeline`:
`self.user_messages` (the pending-utterance buffer, one shared list per
filter instance) plus a log of the flushes dispatched to the background
storage thread, each recorded as (joined text, user id).  The source keeps
no such log; it is ghost state recording the `threading.Thread` targets
handed to `_store_memory_thread`, in dispatch order. -/
structure MemState where
  user_messages : List String := []
  flushed : List (String × String) := []
deriving DecidableEq, Repr

/-- User id resolution in `inlet` (mem0_memory_filter.py lines 102-105):
`user["id"]` when the user record is present with a truthy `id`, else the
`mem_zero_user` valve. -/
def mem_uid (v : MemValves) (user : Option User) : String :=
  match user with
  | some u =>
      match u.id with
      | some i => if i == "" then v.mem_zero_user else i
      | none => v.mem_zero_user
  | none => v.mem_zero_user

/-- Model of `Pipeline._store_memories` (mem0_memory_filter.py lines 136-162), state
part.  The pending texts are joined with single spaces; on success a storage
thread is dispatched with the joined text and the buffer is cleared; when
`get_memory()` or thread creation raises (`flush_ok = false`) the handler
clears the buffer without dispatching a flush. -/
def store_memories (st : MemState) (uid : String) (flush_ok : Bool) : MemState :=
  if flush_ok then
    { user_messages := [],
      flushed := st.flushed ++ [(String.intercalate " " st.user_messages, uid)] }
  else { user_messages := [], flushed := st.flushed }

/-- One retrieved memory as returned by `memory.search`: the `memory` text and
the relevance `score`. -/
structure MemHit where
  memory : String
  score : ℚ
deriving DecidableEq, Repr

/-- The `memory_context_template` valve applied to a memory: the default
template with `\x7bmemory\x7d` substituted. -/
def memory_context_template (memory : String) : String :=
  "This is your inner voice talking, you remember this about the person you're chatting with: " ++ memory

/-- Model of `Pipeline._add_memory_context` (mem0_memory_filter.py lines 172-204).
`hits` is the oracle for `memory.search`: `none` models an exception (caught;
no change), `some l` the returned list.  Results below the relevance
threshold are dropped; the first remaining one is injected as a leading
system message. -/
def add_memory_context (v : MemValves) (body : Body) (hits : Option (List MemHit)) : Body :=
  match hits with
  | none => body
  | some ms =>
      if ms.isEmpty then body
      else
        match ms.filter (fun m => v.memory_relevance_threshold ≤ m.score) with
        | [] => body
        | best :: _ =>
            { body with messages :=
                { role := "system", content := memory_context_template best.memory } :: body.messages }

/-- Model of `Pipeline.inlet` of the memory filter (mem0_memory_filter.py lines
97-134), dict-typed body path.  Appends the last message's content to the
shared `user_messages` buffer, flushes when the buffer has reached
`store_cycles` entries, then runs retrieval. -/
def mem_inlet (v : MemValves) (st : MemState) (body : Body) (user : Option User)
    (hits : Option (List MemHit)) (flush_ok : Bool) : Body × MemState :=
  let uid := mem_uid v user
  match body.messages.getLast? with
  | none => (body, st)
  | some lastMsg =>
      let st1 :=
        if v.enable_memory_storage then
          let stApp := { st with user_messages := st.user_messages ++ [lastMsg.content] }
          if v.store_cycles ≤ stApp.user_messages.length then store_memories stApp uid flush_ok
          else stApp
        else st
      let body1 :=
        if v.enable_memory_retrieval then add_memory_context v body hits else body
      (body1, st1)

/-- A sequence of inbound calls to the memory filter, each with its envelope
and user record.  The external oracles are fixed to the claim's assumptions:
retrieval raises (no envelope change) and no flush errors occur. -/
def mem_run (v : MemValves) : List (Body × Option User) → MemState → MemState
  | [], st => st
  | (b, u) :: rest, st => mem_run v rest (mem_inlet v st b u none true).2

/-- Content of the last message of an envelope ("" when there is none). -/
def lastContent (b : Body) : String :=
  match b.messages.getLast? with
  | some m => m.content
  | none => ""

/-- Does the envelope's message list end with a user-role message? -/
def endsWithUser (b : Body) : Bool :=
  match b.messages.getLast? with
  | some m => m.role == "user"
  | none => false

/-! ## Robust Memory Filter (src/pipelines/mem0_memory_filter_pipeline.py) -/

structure MemPValves where
  store_cycles : Nat := 3
  mem_zero_user : String := "bailey"
  enable_memory_storage : Bool := true
  enable_memory_search : Bool := true
deriving Repr

/-- Mutable attributes of the robust memory filter, as for `MemState`. -/
structure MemPState where
  user_messages : List String := []
  flushed : List (String × String) := []
deriving DecidableEq, Repr

/-- The last-user-message scan of the robust `inlet`
(mem0_memory_filter_pipeline.py lines 147-157): walk the messages from the
end, take the first with role `user` and truthy content, strip it, and treat
an all-whitespace result as absent. -/
def lastUserMessageText (ms : List Message) : Option String :=
  match ms.reverse.find? (fun m => m.role == "user" && !(m.content == "")) with
  | none => none
  | some m =>
      let t := trimStr m.content
      if t == "" then none else some t

/-- Model of `Pipeline._handle_memory_storage` (mem0_memory_filter_pipeline.py lines
181-212).  `memAvailable` models `get_memory()` returning an instance; when
it is unavailable no thread is dispatched, but `user_messages.clear()` still
runs once the threshold is reached.  `thread_ok` models
`threading.Thread(...)` / `thread.start()` succeeding; when either raises,
the handler's `except` catches it before the `clear()` line, so no flush is
dispatched and the buffer keeps the appended messages. -/
def mem0p_handle_storage (v : MemPValves) (st : MemPState) (text uid : String)
    (memAvailable thread_ok : Bool) : MemPState :=
  let pend := st.user_messages ++ [text]
  if v.store_cycles ≤ pend.length then
    if memAvailable then
      if thread_ok then
        { user_messages := [], flushed := st.flushed ++ [(String.intercalate " " pend, uid)] }
      else { st with user_messages := pend }
    else { user_messages := [], flushed := st.flushed }
  else { st with user_messages := pend }

/-- Model of `Pipeline.inlet` of the robust memory filter
(mem0_memory_filter_pipeline.py lines 119-179), dict-typed body path.
`searchHit` is the oracle for `_handle_memory_search`: the `memory` text of
the first search result, `none` when the search fails or returns nothing;
`thread_ok` is the storage-thread oracle of `mem0p_handle_storage`. -/
def mem0p_inlet (v : MemPValves) (st : MemPState) (body : Body)
    (memAvailable thread_ok : Bool) (searchHit : Option String) : Body × MemPState :=
  if body.messages.isEmpty then (body, st)
  else
    match lastUserMessageText body.messages with
    | none => (body, st)
    | some text =>
        let uid := v.mem_zero_user
        let st1 :=
          if v.enable_memory_storage then
            mem0p_handle_storage v st text uid memAvailable thread_ok
          else st
        let body1 :=
          if v.enable_memory_search then
            match (if memAvailable then searchHit else none) with
            | some mem =>
                if trimStr mem == "" then body
                else { body with messages :=
                    { role := "system", content := "Context from your memory: " ++ mem } :: body.messages }
            | none => body
          else body
        (body1, st1)

/-! ## Observability Filter (src/pipelines/langfuse_tracking.py)

Python floats (the per-token costs) are embedded as exact rationals; the
Langfuse SDK calls are summarized by boolean oracles saying whether the
`trace` / `generation` creation succeeded (`_create_or_get_trace` and
`_create_generation` return `None` on exception). -/

structure LFValves where
  enable_tracking : Bool := true
  enable_cost_tracking : Bool := true
  track_input_tokens : Bool := true
  track_output_tokens : Bool := true
  anonymize_user_data : Bool := false
  exclude_system_messages : Bool := false
  max_content_length : Nat := 10000
  cost_per_input_token : ℚ := 1/1000000
  cost_per_output_token : ℚ := 2/1000000
deriving Repr

/-- Model of `Pipeline._should_track` (langfuse_tracking.py lines 167-173):
`LANGFUSE_AVAILABLE`, the `enable_tracking` valve, and a non-`None`
`self.langfuse` client. -/
def should_track (available : Bool) (v : LFValves) (clientInit : Bool) : Bool :=
  available && v.enable_tracking && clientInit

/-- Python truthiness filter for an optional string: `None` and `""` are
falsy. -/
def truthyStr : Option String → Option String
  | some s => if s == "" then none else some s
  | none => none

/-- Python's `a or b` over optional strings. -/
def orTruthy (a b : Option String) : Option String :=
  match truthyStr a with
  | some s => some s
  | none => truthyStr b

/-- Model of `Pipeline._get_user_id` (langfuse_tracking.py lines 187-199).  `hashFn`
abstracts `hashlib.sha256(...).hexdigest()`; the code keeps its first 16
characters.  The final `or "anonymous"` guards a falsy resolved id. -/
def get_user_id (v : LFValves) (hashFn : String → String) (user : Option User) : String :=
  match user with
  | none => "anonymous"
  | some u =>
      match orTruthy u.id (orTruthy u.email u.username) with
      | none => "anonymous"
      | some s =>
          let r := if v.anonymize_user_data then (hashFn s).take 16 else s
          if r == "" then "anonymous" else r

/-- Model of `Pipeline._get_conversation_id` (langfuse_tracking.py lines 175-185):
prefer a truthy `conversation_id` then `chat_id` from the envelope, else
synthesize `user-id_⌊time⌋` at second granularity (`int(time.time())`; the
timestamp `now` is nonnegative, so floor and Python's truncation agree). -/
def get_conversation_id (v : LFValves) (hashFn : String → String) (body : Body)
    (user : Option User) (now : ℚ) : String :=
  match orTruthy body.conversation_id body.chat_id with
  | some c => c
  | none => get_user_id v hashFn user ++ "_" ++ toString (⌊now⌋ : ℤ)

/-- Model of `Pipeline._estimate_tokens` (langfuse_tracking.py lines 364-367):
`len(text) // 4`. -/
def estimate_tokens (text : String) : Nat :=
  text.length / 4

/-- Python `round(x, 6)` on the exact cost values this filter produces (at
the exact rationals the model computes, the value has at most 6 decimal
places, so every rounding convention agrees). -/
def round6 (q : ℚ) : ℚ :=
  (round (q * 1000000) : ℤ) / 1000000

/-- Model of `Pipeline._calculate_cost` (langfuse_tracking.py lines 369-380): `None`
when both token counts are falsy, otherwise
`input_tokens * cost_per_input_token + output_tokens * cost_per_output_token`
rounded to 6 decimal places (each term guarded by truthiness). -/
def calculate_cost (v : LFValves) (input_tokens output_tokens : Option Nat) : Option ℚ :=
  if input_tokens.getD 0 == 0 && output_tokens.getD 0 == 0 then none
  else
    let c1 : ℚ :=
      match input_tokens with
      | some n => if n == 0 then 0 else (n : ℚ) * v.cost_per_input_token
      | none => 0
    let c2 : ℚ :=
      match output_tokens with
      | some n => if n == 0 then 0 else (n : ℚ) * v.cost_per_output_token
      | none => 0
    some (round6 (c1 + c2))

/-- Model of `Pipeline._extract_input_content` (langfuse_tracking.py lines 311-328):
join messages as `role: content` lines, optionally dropping system messages,
truncating to `max_content_length` characters with an ellipsis marker. -/
def extract_input_content (v : LFValves) (messages : List Message) : String :=
  let msgs := if v.exclude_system_messages then messages.filter (fun m => !(m.role == "system"))
              else messages
  let full := String.intercalate "\n" (msgs.map (fun m => m.role ++ ": " ++ m.content))
  if v.max_content_length < full.length then full.take v.max_content_length ++ "..." else full

/-- The generation span stored in `active_traces`: `None` when
`_create_generation` failed, otherwise it carries the estimated input token
count passed as `usage`. -/
structure GenData where
  input_tokens : Option Nat
deriving DecidableEq, Repr

/-- One `active_traces` entry: the generation (possibly `None`) and the
`start_time` recorded with it. -/
structure TraceData where
  generation : Option GenData
  start_time : ℚ
deriving DecidableEq, Repr

/-- Mutable attributes of the observability filter: the two session-keyed
dicts `self.active_traces` and `self.start_times`. -/
structure LFState where
  active_traces : List (String × TraceData) := []
  start_times : List (String × ℚ) := []
deriving DecidableEq, Repr

/-- Model of `Pipeline.inlet` of the observability filter (langfuse_tracking.py lines
108-141), dict-typed body path.  Records the start time, then (when
`_create_or_get_trace` succeeds, `trace_ok`) stores the `active_traces` entry
whose generation is `None` exactly when `_create_generation` failed
(`gen_ok = false`).  The envelope is returned unchanged on every path. -/
def lf_inlet (available clientInit : Bool) (v : LFValves) (hashFn : String → String)
    (st : LFState) (body : Body) (user : Option User) (now : ℚ)
    (trace_ok gen_ok : Bool) : Body × LFState :=
  if should_track available v clientInit = false then (body, st)
  else
    let cid := get_conversation_id v hashFn body user now
    let st1 : LFState := { st with start_times := insertKV st.start_times cid now }
    if trace_ok then
      let gen : Option GenData :=
        if gen_ok then
          some { input_tokens :=
            if v.track_input_tokens then some (estimate_tokens (extract_input_content v body.messages))
            else none }
        else none
      (body, { st1 with active_traces := insertKV st1.active_traces cid { generation := gen, start_time := now } })
    else (body, st1)

/-- Model of `Pipeline.outlet` of the observability filter (langfuse_tracking.py lines
143-165) with `_update_generation` (lines 261-309), dict-typed body path.
When no `active_traces` entry exists for the resolved conversation id, or its
stored generation is `None`, `_update_generation` returns early and neither
dict is touched.  Otherwise the generation is finalized — output extraction,
usage totals, latency and cost, then `generation.end(...)` — and only after
that do the `del` statements run; `finalize_ok` models that block completing
without an exception, since an exception there is caught at line 308 and the
deletions are skipped.  The envelope is returned unchanged on every path. -/
def lf_outlet (available clientInit : Bool) (v : LFValves) (hashFn : String → String)
    (st : LFState) (body : Body) (user : Option User) (now : ℚ)
    (finalize_ok : Bool) : Body × LFState :=
  if should_track available v clientInit = false then (body, st)
  else
    let cid := get_conversation_id v hashFn body user now
    match lookupKV st.active_traces cid with
    | none => (body, st)
    | some td =>
        match td.generation with
        | none => (body, st)
        | some _ =>
            if finalize_ok then
              (body, { active_traces := eraseKV st.active_traces cid,
                       start_times := eraseKV st.start_times cid })
            else (body, st)

/-! ## String-typed bodies and `json.loads`

Every hook may receive the envelope as a serialized string.  We model Python
values with a JSON value type, and `json.loads` with a recursive-descent
parser over the character list (fuel-indexed for termination; the fuel bound
of `json_loads` is generous — every recursive call follows the consumption of
at least one input character, or descends into a subterm that does).  Number
tokens are kept as their raw lexeme (no modelled code inspects numeric
values).  Python's `json` extensions `NaN`/`Infinity` are not modelled; no
theorem depends on them. -/

inductive Json where
  | null
  | bool (b : Bool)
  | num (raw : String)
  | str (s : String)
  | arr (elems : List Json)
  | obj (fields : List (String × Json))
deriving Repr

/-- JSON insignificant whitespace. -/
def skipWsJ (l : List Char) : List Char :=
  l.dropWhile (fun c => c == ' ' || c == '\t' || c == '\n' || c == '\r')

def takeLit (l : List Char) (lit : List Char) : Option (List Char) :=
  if listStartsWith l lit then some (l.drop lit.length) else none

def hexDigitVal (c : Char) : Option Nat :=
  let n := c.toNat
  if 48 ≤ n && n ≤ 57 then some (n - 48)
  else if 97 ≤ n && n ≤ 102 then some (n - 87)
  else if 65 ≤ n && n ≤ 70 then some (n - 55)
  else none

/-- The simple escapes of a JSON string literal, as a lookup table from the
escape letter to the escaped character. -/
def escTable : List (Char × Char) :=
  [('"', '"'), ('\\', '\\'), ('/', '/'), ('b', Char.ofNat 8), ('f', Char.ofNat 12),
   ('n', '\n'), ('r', '\r'), ('t', '\t')]

def escSimple (c : Char) : Option Char :=
  (escTable.find? (fun p => p.1 == c)).map (fun p => p.2)

/-- Parse the remainder of a JSON string literal (after the opening quote),
returning its characters and the rest of the input.  Raw control characters
and invalid escapes are rejected, as Python's strict `json.loads` does. -/
def parseJStr : Nat → List Char → Option (List Char × List Char)
  | 0, _ => none
  | _ + 1, [] => none
  | fuel + 1, c :: rest =>
      if c == '"' then some ([], rest)
      else if c == '\\' then
        match rest with
        | 'u' :: a :: b :: c2 :: d :: rest3 =>
            (match hexDigitVal a, hexDigitVal b, hexDigitVal c2, hexDigitVal d with
             | some ha, some hb, some hc, some hd =>
                 (parseJStr fuel rest3).map
                   (fun p => (Char.ofNat (((ha * 16 + hb) * 16 + hc) * 16 + hd) :: p.1, p.2))
             | _, _, _, _ => none)
        | e :: rest2 =>
            (match escSimple e with
             | some ch => (parseJStr fuel rest2).map (fun p => (ch :: p.1, p.2))
             | none => none)
        | [] => none
      else if c.toNat < 32 then none
      else (parseJStr fuel rest).map (fun p => (c :: p.1, p.2))

/-- Parse a JSON number token (`-?(0|[1-9][0-9]*)(\.[0-9]+)?([eE][+-]?[0-9]+)?`),
keeping the raw lexeme.  The fraction and exponent groups are all-or-nothing,
as in the reference grammar. -/
def parseNum (l : List Char) : Option (Json × List Char) :=
  let signAnd : List Char × List Char :=
    match l with
    | '-' :: r => (['-'], r)
    | _ => ([], l)
  let sign := signAnd.1
  let l1 := signAnd.2
  let intPart := l1.takeWhile Char.isDigit
  let r1 := l1.drop intPart.length
  if intPart.isEmpty then none
  else if 1 < intPart.length && intPart.headD '0' == '0' then none
  else
    let fracAnd : List Char × List Char :=
      match r1 with
      | '.' :: r =>
          let ds := r.takeWhile Char.isDigit
          if ds.isEmpty then ([], r1) else ('.' :: ds, r.drop ds.length)
      | _ => ([], r1)
    let r2 := fracAnd.2
    let expAnd : List Char × List Char :=
      match r2 with
      | e :: r =>
          if e == 'e' || e == 'E' then
            let sgAnd : List Char × List Char :=
              match r with
              | '+' :: q => (['+'], q)
              | '-' :: q => (['-'], q)
              | _ => ([], r)
            let ds := sgAnd.2.takeWhile Char.isDigit
            if ds.isEmpty then ([], r2)
            else (e :: (sgAnd.1 ++ ds), sgAnd.2.drop ds.length)
          else ([], r2)
      | [] => ([], r2)
    some (Json.num (String.mk (sign ++ intPart ++ fracAnd.1 ++ expAnd.1)), expAnd.2)

/-- Opening and closing curly brackets, by code point. -/
def lbrace : Char := Char.ofNat 123

def rbrace : Char := Char.ofNat 125

mutual

/-- Parse one JSON value (after skipping whitespace). -/
def parseVal : Nat → List Char → Option (Json × List Char)
  | 0, _ => none
  | fuel + 1, l0 =>
      let l := skipWsJ l0
      match l with
      | [] => none
      | c :: rest =>
          if c == 'n' then (takeLit l ['n', 'u', 'l', 'l']).map (fun r => (Json.null, r))
          else if c == 't' then (takeLit l ['t', 'r', 'u', 'e']).map (fun r => (Json.bool true, r))
          else if c == 'f' then (takeLit l ['f', 'a', 'l', 's', 'e']).map (fun r => (Json.bool false, r))
          else if c == '"' then
            (parseJStr (fuel + 1) rest).map (fun p => (Json.str (String.mk p.1), p.2))
          else if c == '[' then
            match skipWsJ rest with
            | ']' :: r2 => some (Json.arr [], r2)
            | r1 => (parseItems fuel r1).map (fun p => (Json.arr p.1, p.2))
          else if c == lbrace then
            match skipWsJ rest with
            | c2 :: r2 => if c2 == rbrace then some (Json.obj [], r2)
                          else (parseFields fuel (c2 :: r2)).map (fun p => (Json.obj p.1, p.2))
            | [] => none
          else if c == '-' || c.isDigit then parseNum l
          else none

/-- Parse the comma-separated elements of a non-empty array, up to and
including the closing bracket. -/
def parseItems : Nat → List Char → Option (List Json × List Char)
  | 0, _ => none
  | fuel + 1, l =>
      match parseVal fuel l with
      | none => none
      | some (j, r) =>
          match skipWsJ r with
          | ',' :: r2 => (parseItems fuel r2).map (fun p => (j :: p.1, p.2))
          | ']' :: r2 => some ([j], r2)
          | _ => none

/-- Parse the comma-separated `"key": value` fields of a non-empty object,
up to and including the closing bracket. -/
def parseFields : Nat → List Char → Option (List (String × Json) × List Char)
  | 0, _ => none
  | fuel + 1, l =>
      match skipWsJ l with
      | '"' :: r =>
          (match parseJStr (fuel + 1) r with
           | none => none
           | some (key, r2) =>
               match skipWsJ r2 with
               | ':' :: r3 =>
                   (match parseVal fuel r3 with
                    | none => none
                    | some (j, r4) =>
                        match skipWsJ r4 with
                        | ',' :: r5 => (parseFields fuel r5).map
                            (fun p => ((String.mk key, j) :: p.1, p.2))
                        | c :: r5 => if c == rbrace then some ([(String.mk key, j)], r5) else none
                        | [] => none)
               | _ => none)
      | _ => none

end

/-- Python `json.loads`: parse one value and require only whitespace after
it. -/
def json_loads (s : String) : Option Json :=
  match parseVal (s.length * 4 + 16) s.toList with
  | none => none
  | some (j, rest) => if (skipWsJ rest).isEmpty then some j else none

def jLookup (fields : List (String × Json)) (k : String) : Option Json :=
  (fields.find? (fun p => p.1 == k)).map (fun p => p.2)

/-- Read one element of a parsed `messages` list as a `Message` (`role` and
`content` read with `.get`-style string defaults); non-object elements are
dropped — a simplification of the dynamic dict access, on a path no claim
exercises. -/
def jsonToMessage (j : Json) : Option Message :=
  match j with
  | Json.obj fs =>
      some { role := (match jLookup fs "role" with | some (Json.str s) => s | _ => ""),
             content := (match jLookup fs "content" with | some (Json.str s) => s | _ => "") }
  | _ => none

/-- View a parsed JSON value as a message envelope.  A non-object value gives
`none`: attribute access (`body.get`) or `in`-tests on it either raise or
short-circuit in the source, which the raw hooks below reflect case by case.
Fields outside the modelled `Body` are dropped. -/
def jsonToBody (j : Json) : Option Body :=
  match j with
  | Json.obj fs =>
      some { messages :=
               (match jLookup fs "messages" with
                | some (Json.arr xs) => xs.filterMap jsonToMessage
                | _ => []),
             conversation_id :=
               (match jLookup fs "conversation_id" with | some (Json.str s) => some s | _ => none),
             chat_id :=
               (match jLookup fs "chat_id" with | some (Json.str s) => some s | _ => none),
             model :=
               (match jLookup fs "model" with | some (Json.str s) => some s | _ => none) }
  | _ => none

/-- A Python value as a hook argument or return: a dict envelope, a
non-dict JSON value (arising from parsing a string body), or a plain
string. -/
inductive PyVal where
  | dict (b : Body)
  | jval (j : Json)
  | strv (s : String)
deriving Repr

/-- The search filter's `inlet` over a possibly string-typed body
(perplexity_search.py lines 86-88): `json.loads` runs outside any
try/except, so an invalid JSON string raises `JSONDecodeError` out of the
hook, and a parsed non-dict raises `AttributeError` at
`body.get("messages", [])`. -/
def perplexity_inlet_raw (v : SearchValves) (x : PyVal) (api : Option SearchResult) :
    Except String PyVal :=
  match x with
  | PyVal.dict b => Except.ok (PyVal.dict (perplexity_inlet v b api))
  | PyVal.strv s =>
      (match json_loads s with
       | none => Except.error "json.loads: JSONDecodeError"
       | some j =>
           match jsonToBody j with
           | none => Except.error "AttributeError: .get on a non-dict body"
           | some b => Except.ok (PyVal.dict (perplexity_inlet v b api)))
  | PyVal.jval j =>
      (match jsonToBody j with
       | none => Except.error "AttributeError: .get on a non-dict body"
       | some b => Except.ok (PyVal.dict (perplexity_inlet v b api)))

/-- The basic memory filter's `inlet` over a possibly string-typed body
(mem0_memory_filter.py lines 109-111): `json.loads` runs outside any
try/except, exactly as in the search filter. -/
def mem_inlet_raw (v : MemValves) (st : MemState) (x : PyVal) (user : Option User)
    (hits : Option (List MemHit)) (flush_ok : Bool) : Except String (PyVal × MemState) :=
  match x with
  | PyVal.dict b =>
      Except.ok (PyVal.dict (mem_inlet v st b user hits flush_ok).1, (mem_inlet v st b user hits flush_ok).2)
  | PyVal.strv s =>
      (match json_loads s with
       | none => Except.error "json.loads: JSONDecodeError"
       | some j =>
           match jsonToBody j with
           | none => Except.error "AttributeError: .get on a non-dict body"
           | some b =>
               Except.ok (PyVal.dict (mem_inlet v st b user hits flush_ok).1, (mem_inlet v st b user hits flush_ok).2))
  | PyVal.jval j =>
      (match jsonToBody j with
       | none => Except.error "AttributeError: .get on a non-dict body"
       | some b =>
           Except.ok (PyVal.dict (mem_inlet v st b user hits flush_ok).1, (mem_inlet v st b user hits flush_ok).2))

/-- The observability filter's `inlet` over a possibly string-typed body
(langfuse_tracking.py lines 113-141): the parse and all tracking work run
inside `try/except`, whose handler logs and falls through to `return body`
with the state untouched, so no string body raises. -/
def lf_inlet_raw (available clientInit : Bool) (v : LFValves) (hashFn : String → String)
    (st : LFState) (x : PyVal) (user : Option User) (now : ℚ)
    (trace_ok gen_ok : Bool) : Except String (PyVal × LFState) :=
  if should_track available v clientInit = false then Except.ok (x, st)
  else
    match x with
    | PyVal.dict b =>
        Except.ok (PyVal.dict (lf_inlet available clientInit v hashFn st b user now trace_ok gen_ok).1,
                   (lf_inlet available clientInit v hashFn st b user now trace_ok gen_ok).2)
    | PyVal.strv s =>
        (match json_loads s with
         | none => Except.ok (PyVal.strv s, st)
         | some j =>
             match jsonToBody j with
             | none => Except.ok (PyVal.jval j, st)
             | some b =>
                 Except.ok (PyVal.dict (lf_inlet available clientInit v hashFn st b user now trace_ok gen_ok).1,
                            (lf_inlet available clientInit v hashFn st b user now trace_ok gen_ok).2))
    | PyVal.jval j =>
        (match jsonToBody j with
         | none => Except.ok (PyVal.jval j, st)
         | some b =>
             Except.ok (PyVal.dict (lf_inlet available clientInit v hashFn st b user now trace_ok gen_ok).1,
                        (lf_inlet available clientInit v hashFn st b user now trace_ok gen_ok).2))

/-- The robust memory filter's `inlet` over a possibly string-typed body
(mem0_memory_filter_pipeline.py lines 121-179): the string parse has its own
`try/except` returning the body on failure, the remainder sits inside an
outer `try/except` returning the body, so no string body raises.  A parsed
non-dict reaches the `"messages" not in body` test, which either raises into
the outer handler or is vacuously true; both return the current body. -/
def mem0p_inlet_raw (v : MemPValves) (st : MemPState) (x : PyVal)
    (memAvailable thread_ok : Bool) (searchHit : Option String) :
    Except String (PyVal × MemPState) :=
  match x with
  | PyVal.dict b =>
      Except.ok (PyVal.dict (mem0p_inlet v st b memAvailable thread_ok searchHit).1,
                 (mem0p_inlet v st b memAvailable thread_ok searchHit).2)
  | PyVal.strv s =>
      (match json_loads s with
       | none => Except.ok (PyVal.strv s, st)
       | some j =>
           match jsonToBody j with
           | none => Except.ok (PyVal.jval j, st)
           | some b =>
               Except.ok (PyVal.dict (mem0p_inlet v st b memAvailable thread_ok searchHit).1,
                          (mem0p_inlet v st b memAvailable thread_ok searchHit).2))
  | PyVal.jval j =>
      Except.ok (PyVal.jval j, st)

/-- Model of `Pipeline.outlet` of the search filter over a possibly string-typed
body (perplexity_search.py lines 282-284): the outbound hook does no parsing
at all and returns its argument unchanged, so it tolerates every body. -/
def perplexity_outlet_raw (_v : SearchValves) (x : PyVal) : Except String PyVal :=
  Except.ok x

/-- Model of the observability filter's `outlet` over a possibly string-typed
body (langfuse_tracking.py lines 143-165): as in its inlet, the parse and
all tracking work run inside `try/except` whose handler falls through to
`return body`, so no string body raises. -/
def lf_outlet_raw (available clientInit : Bool) (v : LFValves) (hashFn : String → String)
    (st : LFState) (x : PyVal) (user : Option User) (now : ℚ)
    (finalize_ok : Bool) : Except String (PyVal × LFState) :=
  if should_track available v clientInit = false then Except.ok (x, st)
  else
    match x with
    | PyVal.dict b =>
        Except.ok (PyVal.dict (lf_outlet available clientInit v hashFn st b user now finalize_ok).1,
                   (lf_outlet available clientInit v hashFn st b user now finalize_ok).2)
    | PyVal.strv s =>
        (match json_loads s with
         | none => Except.ok (PyVal.strv s, st)
         | some j =>
             match jsonToBody j with
             | none => Except.ok (PyVal.jval j, st)
             | some b =>
                 Except.ok
                   (PyVal.dict (lf_outlet available clientInit v hashFn st b user now finalize_ok).1,
                    (lf_outlet available clientInit v hashFn st b user now finalize_ok).2))
    | PyVal.jval j =>
        (match jsonToBody j with
         | none => Except.ok (PyVal.jval j, st)
         | some b =>
             Except.ok
               (PyVal.dict (lf_outlet available clientInit v hashFn st b user now finalize_ok).1,
                (lf_outlet available clientInit v hashFn st b user now finalize_ok).2))

/-! ## Concrete example envelopes and users used by the claim instances -/

/-- A one-user-message envelope with an explicit conversation id "c1". -/
def c9Body : Body :=
  { messages := [{ role := "user", content := "hi" }], conversation_id := some "c1" }

/-- Session-A envelope with first message "a1". -/
def bodyA1 : Body :=
  { messages := [{ role := "user", content := "a1" }], conversation_id := some "A" }

/-- Session-A envelope with second message "a2". -/
def bodyA2 : Body :=
  { messages := [{ role := "user", content := "a2" }], conversation_id := some "A" }

/-- Session-B envelope with message "b1". -/
def bodyB1 : Body :=
  { messages := [{ role := "user", content := "b1" }], conversation_id := some "B" }

/-- Session-B envelope with message "b2". -/
def bodyB2 : Body :=
  { messages := [{ role := "user", content := "b2" }], conversation_id := some "B" }

/-- User record of session A. -/
def userAlice : Option User := some { id := some "alice" }

/-- User record of session B. -/
def userBob : Option User := some { id := some "bob" }

/-- Search-filter valves with an API key configured. -/
def c5Valves : SearchValves := { perplexity_api_key := "test-key" }

/-- The one-user-message transcript of the end-to-end search example. -/
def c5Body : Body :=
  { messages := [{ role := "user", content := "What is the capital of France?" }] }

/-- The stubbed provider response of the end-to-end search example. -/
def c5Result : SearchResult :=
  { content := "Paris is the capital.", citations := ["wiki.org"] }

/-! ## Helper lemmas -/

theorem listStartsWith_append (p l : List Char) : listStartsWith (p ++ l) p = true := by
  induction p with
  | nil => cases l <;> rfl
  | cons c cs ih => simpa [listStartsWith] using ih

theorem listHasSub_of_startsWith (l p : List Char) (h : listStartsWith l p = true) :
    listHasSub l p = true := by
  cases l with
  | nil =>
      cases p with
      | nil => rfl
      | cons a ps => simp [listStartsWith] at h
  | cons c rest => simp [listHasSub, h]

theorem listHasSub_parts (l1 p l2 : List Char) : listHasSub (l1 ++ (p ++ l2)) p = true := by
  induction l1 with
  | nil => exact listHasSub_of_startsWith _ _ (listStartsWith_append p l2)
  | cons c cs ih => simp [listHasSub, ih]

/-- A string built as `s1 ++ pat ++ s2` contains `pat` as a substring. -/
theorem strContains_of_decomp (s pat : String)
    (h : ∃ s1 s2, s = s1 ++ (pat ++ s2)) : strContains s pat = true := by
  obtain ⟨s1, s2, rfl⟩ := h
  show listHasSub (s1.toList ++ (pat.toList ++ s2.toList)) pat.toList = true
  exact listHasSub_parts _ _ _

theorem foldl_append_extend (xs : List String) :
    ∀ acc : String, ∃ t, List.foldl (fun r s => r ++ s) acc xs = acc ++ t := by
  induction xs with
  | nil => intro acc; exact ⟨"", by simp⟩
  | cons y ys ih =>
      intro acc
      obtain ⟨t, ht⟩ := ih (acc ++ y)
      exact ⟨y ++ t, by simp [ht, String.append_assoc]⟩

theorem foldl_member_decomp (xs : List String) (x : String) (hx : x ∈ xs) :
    ∀ acc : String, ∃ j1 j2, List.foldl (fun r s => r ++ s) acc xs = j1 ++ (x ++ j2) := by
  induction xs with
  | nil => cases hx
  | cons y ys ih =>
      intro acc
      cases hx with
      | head =>
          obtain ⟨t, ht⟩ := foldl_append_extend ys (acc ++ x)
          exact ⟨acc, t, by simp [ht, String.append_assoc]⟩
      | tail _ hx' => simpa using ih hx' (acc ++ y)

/-- Any member of a joined string list appears in the join, with its
surroundings made explicit. -/
theorem join_member_decomp (xs : List String) (x : String) (hx : x ∈ xs) :
    ∃ j1 j2, String.join xs = j1 ++ (x ++ j2) := by
  simpa [String.join] using foldl_member_decomp xs x hx ""

theorem lookupKV_insertKV_self {α : Type} (l : List (String × α)) (k : String) (v : α) :
    lookupKV (insertKV l k v) k = some v := by
  simp [insertKV, lookupKV]

theorem lookupKV_eraseKV_self {α : Type} (l : List (String × α)) (k : String) :
    lookupKV (eraseKV l k) k = none := by
  induction l with
  | nil => rfl
  | cons p rest ih =>
      obtain ⟨k', v⟩ := p
      by_cases h : k' == k
      · simpa [eraseKV, h] using ih
      · simpa [eraseKV, lookupKV, h] using ih

/-- Value appended to the pending buffer and flush behaviour of one inbound
call of the basic memory filter, state part, spelled out for the runs
below. -/
theorem mem_run_flush (v : MemValves) (u : Option User) :
    ∀ (bs : List Body) (acc : List String) (F : List (String × String)),
      bs ≠ [] →
      (∀ b ∈ bs, b.messages ≠ []) →
      v.enable_memory_storage = true →
      acc.length + bs.length = v.store_cycles →
      mem_run v (bs.map (fun b => (b, u))) { user_messages := acc, flushed := F } =
        { user_messages := [],
          flushed := F ++ [(String.intercalate " " (acc ++ bs.map lastContent), mem_uid v u)] } := by
  intro bs
  induction bs with
  | nil => intro acc F hne _ _ _; exact absurd rfl hne
  | cons b bs ih =>
      intro acc F _ hmsg hst hlen
      have hb : b.messages ≠ [] := hmsg b (by simp)
      obtain ⟨m, hm⟩ : ∃ m, b.messages.getLast? = some m := by
        cases hgl : b.messages.getLast? with
        | none => exact absurd (List.getLast?_eq_none_iff.mp hgl) hb
        | some m => exact ⟨m, rfl⟩
      have hlc : lastContent b = m.content := by simp [lastContent, hm]
      cases bs with
      | nil =>
          have heq : v.store_cycles ≤ acc.length + 1 := by simp at hlen; omega
          conv_lhs => rw [List.map_cons, List.map_nil, mem_run, mem_run]
          simp [mem_inlet, hm, hst, store_memories, heq, hlc]
      | cons b2 bs2 =>
          have hlt : ¬ v.store_cycles ≤ acc.length + 1 := by simp at hlen; omega
          have step : (mem_inlet v { user_messages := acc, flushed := F } b u none true).2 =
              { user_messages := acc ++ [m.content], flushed := F } := by
            simp [mem_inlet, hm, hst, hlt]
          conv_lhs => rw [List.map_cons, mem_run]
          rw [step, ih (acc ++ [m.content]) F (by simp) (fun x hx => hmsg x (by simp [hx]))
            hst (by simp at hlen ⊢; omega)]
          simp [hlc, List.append_assoc]

/-! ## Claims -/

/-- C4: the Search Augmentation Filter's trigger decision returns true for
"search: latest AI news" (manual trigger), and, with the manual trigger
disabled, false for "hello there", which matches no configured keyword and no
question-form or recency pattern. -/
theorem C4_trigger_decision :
    should_perform_search {} "search: latest AI news" = true ∧
    should_perform_search { enable_manual_search := false } "hello there" = false := by
  constructor <;> decide

/-- C3 counterexample: on "Can you search: what is the weather today" the
trigger decision fires, but `_clean_search_query` does not remove the manual
trigger "search:" — the trigger substitution is anchored at the start of the
string and runs before filler stripping, so only the filler "Can you" is
removed and the cleaned query still contains "search:". -/
theorem C3_counterexample :
    should_perform_search {} "Can you search: what is the weather today" = true ∧
    clean_search_query "Can you search: what is the weather today" =
      "search: what is the weather today" ∧
    strContains (clean_search_query "Can you search: what is the weather today") "search:" = true := by
  refine ⟨by decide, by decide, by decide⟩

/-- C3 amended: for the input "Can you search: what is the weather today" the
trigger decision fires and cleaning removes the leading conversational filler
"Can you", but the manual-trigger prefix "search:" remains in the cleaned
query, because trigger prefixes are stripped first and only when they stand
at the very start of the query. -/
theorem C3_clean_query_amended :
    should_perform_search {} "Can you search: what is the weather today" = true ∧
    strContains (clean_search_query "Can you search: what is the weather today") "Can you" = false ∧
    clean_search_query "Can you search: what is the weather today" =
      "search: what is the weather today" := by
  refine ⟨by decide, by decide, by decide⟩

/-- C6: the token estimator is integer division of the text length by 4
(`estimate_tokens "abcd" = 1`, `estimate_tokens "" = 0`), and at the default
rates the cost of 1,000,000 input and 500,000 output tokens is 2.0 after
rounding to 6 decimal places. -/
theorem C6_tokens_and_cost :
    estimate_tokens "abcd" = 1 ∧
    estimate_tokens "" = 0 ∧
    calculate_cost {} (some 1000000) (some 500000) = some 2 := by
  refine ⟨rfl, rfl, ?_⟩
  simp only [calculate_cost, round6]
  norm_num

/-- C5: whenever a search is triggered (last message fires the decision, an
API key is configured) and the provider call succeeds with a non-empty
formatted result, the Search Augmentation Filter inserts exactly one new
system message immediately before the last message of the transcript; the
inserted content contains the returned search content, and it contains one
formatted citation line per returned citation up to the configured maximum,
in the configured citation style (markdown `i. url` or numbered `[i] url`).
The end-to-end one-message instance is the witness below. -/
theorem C5_search_context_insertion (v : SearchValves) (b : Body) (m : Message)
    (r : SearchResult)
    (hlast : b.messages.getLast? = some m)
    (htrig : should_perform_search v m.content = true)
    (hkey : (v.perplexity_api_key == "") = false)
    (hfmt : (format_search_results v r.content r.citations == "") = false) :
    (perplexity_inlet v b (some r)).messages =
      b.messages.dropLast ++
        [{ role := "system",
           content := search_context_template (format_search_results v r.content r.citations) },
         m] ∧
    strContains (search_context_template (format_search_results v r.content r.citations))
      r.content = true ∧
    (∀ p ∈ (r.citations.take v.max_search_results).enum,
       v.include_citations = true → v.citation_format = "markdown" →
       strContains (search_context_template (format_search_results v r.content r.citations))
         (toString (p.1 + 1) ++ ". " ++ p.2 ++ "\n") = true) ∧
    (∀ p ∈ (r.citations.take v.max_search_results).enum,
       v.include_citations = true → v.citation_format = "numbered" →
       strContains (search_context_template (format_search_results v r.content r.citations))
         ("[" ++ toString (p.1 + 1) ++ "] " ++ p.2 ++ "\n") = true) := by
  refine ⟨?_, ?_, ?_, ?_⟩
  · unfold perplexity_inlet
    rw [hlast]
    simp [htrig, hkey, hfmt, add_search_context, insertBeforeLast, hlast]
  · obtain ⟨t, ht⟩ : ∃ t, format_search_results v r.content r.citations = r.content ++ t := by
      unfold format_search_results
      split
      · split
        · exact ⟨_, by rw [String.append_assoc]⟩
        · split
          · exact ⟨_, by rw [String.append_assoc]⟩
          · exact ⟨"", by simp⟩
      · exact ⟨"", by simp⟩
    rw [ht]
    exact strContains_of_decomp _ _
      ⟨"Based on current web search results:\n\n",
       t ++ "\n\nNow, please answer the user's question using this information:",
       by simp [search_context_template, String.append_assoc]⟩
  · intro p hp hinc hsty
    have hne : r.citations.isEmpty = false := by
      cases hc : r.citations with
      | nil => rw [hc] at hp; simp at hp
      | cons a l => rfl
    have hfr : format_search_results v r.content r.citations =
        r.content ++ "\n\n**Sources:**\n" ++
          String.join (((r.citations.take v.max_search_results).enum).map
            (fun p => toString (p.1 + 1) ++ ". " ++ p.2 ++ "\n")) := by
      simp [format_search_results, hinc, hne, hsty]
    have hmem : (toString (p.1 + 1) ++ ". " ++ p.2 ++ "\n") ∈
        ((r.citations.take v.max_search_results).enum).map
          (fun p => toString (p.1 + 1) ++ ". " ++ p.2 ++ "\n") :=
      List.mem_map_of_mem _ hp
    obtain ⟨j1, j2, hj⟩ := join_member_decomp _ _ hmem
    rw [hfr, hj]
    exact strContains_of_decomp _ _
      ⟨"Based on current web search results:\n\n" ++ r.content ++ "\n\n**Sources:**\n" ++ j1,
       j2 ++ "\n\nNow, please answer the user's question using this information:",
       by simp [search_context_template, String.append_assoc]⟩
  · intro p hp hinc hsty
    have hne : r.citations.isEmpty = false := by
      cases hc : r.citations with
      | nil => rw [hc] at hp; simp at hp
      | cons a l => rfl
    have hfr : format_search_results v r.content r.citations =
        r.content ++ "\n\nSources:\n" ++
          String.join (((r.citations.take v.max_search_results).enum).map
            (fun p => "[" ++ toString (p.1 + 1) ++ "] " ++ p.2 ++ "\n")) := by
      simp [format_search_results, hinc, hne, hsty]
    have hmem : ("[" ++ toString (p.1 + 1) ++ "] " ++ p.2 ++ "\n") ∈
        ((r.citations.take v.max_search_results).enum).map
          (fun p => "[" ++ toString (p.1 + 1) ++ "] " ++ p.2 ++ "\n") :=
      List.mem_map_of_mem _ hp
    obtain ⟨j1, j2, hj⟩ := join_member_decomp _ _ hmem
    rw [hfr, hj]
    exact strContains_of_decomp _ _
      ⟨"Based on current web search results:\n\n" ++ r.content ++ "\n\nSources:\n" ++ j1,
       j2 ++ "\n\nNow, please answer the user's question using this information:",
       by simp [search_context_template, String.append_assoc]⟩

/-- C5 witness: the end-to-end one-message transcript with the stubbed
provider (content "Paris is the capital.", citations ["wiki.org"]): the new
system message is inserted before the user message, and its content contains
the returned content and the markdown citation line "1. wiki.org". -/
theorem C5_search_context_insertion_witness :
    (perplexity_inlet c5Valves c5Body (some c5Result)).messages =
      c5Body.messages.dropLast ++
        [{ role := "system",
           content := search_context_template
             (format_search_results c5Valves c5Result.content c5Result.citations) },
         { role := "user", content := "What is the capital of France?" }] ∧
    strContains (search_context_template
        (format_search_results c5Valves c5Result.content c5Result.citations))
      "Paris is the capital." = true ∧
    strContains (search_context_template
        (format_search_results c5Valves c5Result.content c5Result.citations))
      (toString ((0 : Nat) + 1) ++ ". " ++ "wiki.org" ++ "\n") = true ∧
    (perplexity_inlet c5Valves c5Body (some c5Result)).messages.map Message.role =
      ["system", "user"] := by
  have h := C5_search_context_insertion c5Valves c5Body
    { role := "user", content := "What is the capital of France?" } c5Result
    rfl (by decide) rfl (by decide)
  exact ⟨h.1, h.2.1, h.2.2.1 (0, "wiki.org") (by decide) rfl rfl, by decide⟩

/-- C1: starting from an empty pending-utterance buffer, after exactly
`store_cycles` inbound calls to the Memory Enrichment Filter — each
envelope's messages non-empty and ending with a user message, no flush error
— the pending buffer is empty and exactly one flush was dispatched, whose
stored text is the (space-joined) concatenation, in arrival order, of the
texts appended on those calls. -/
theorem C1_flush_after_store_cycles (v : MemValves) (u : Option User) (bs : List Body)
    (hst : v.enable_memory_storage = true)
    (hn : 1 ≤ v.store_cycles)
    (hlen : bs.length = v.store_cycles)
    (husr : ∀ b ∈ bs, endsWithUser b = true) :
    (mem_run v (bs.map (fun b => (b, u))) {}).user_messages = [] ∧
    (mem_run v (bs.map (fun b => (b, u))) {}).flushed.map Prod.fst =
      [String.intercalate " " (bs.map lastContent)] := by
  have hne : bs ≠ [] := by
    intro h; subst h; simp at hlen; omega
  have hmsg : ∀ b ∈ bs, b.messages ≠ [] := by
    intro b hb
    have h := husr b hb
    unfold endsWithUser at h
    intro hnil
    rw [hnil] at h
    simp at h
  have := mem_run_flush v u bs [] [] hne hmsg hst (by simpa using hlen)
  rw [show ({} : MemState) = { user_messages := [], flushed := [] } from rfl, this]
  simp

/-- C1 witness: three single-user-message envelopes through the default
configuration (`store_cycles = 3`) leave the buffer empty and dispatch
exactly one flush carrying "a b c". -/
theorem C1_flush_after_store_cycles_witness :
    (mem_run {} ([{ messages := [{ role := "user", content := "a" }] },
                  { messages := [{ role := "user", content := "b" }] },
                  { messages := [{ role := "user", content := "c" }] }].map
        (fun b => (b, (none : Option User)))) {}).user_messages = [] ∧
    (mem_run {} ([{ messages := [{ role := "user", content := "a" }] },
                  { messages := [{ role := "user", content := "b" }] },
                  { messages := [{ role := "user", content := "c" }] }].map
        (fun b => (b, (none : Option User)))) {}).flushed.map Prod.fst = ["a b c"] :=
  C1_flush_after_store_cycles {} none _ rfl (by decide) (by decide) (by decide)

/-- C2: for every envelope whose messages list is empty, each filter's
inbound and outbound hook returns the envelope unchanged.  (The two memory
filters define no outbound hook; the search filter's outbound hook is the
identity, and the observability filter's hooks return the envelope unchanged
on every path.) -/
theorem C2_empty_messages_unchanged (b : Body) (h : b.messages = []) :
    (∀ (v : SearchValves) (api : Option SearchResult), perplexity_inlet v b api = b) ∧
    (∀ (v : SearchValves), perplexity_outlet v b = b) ∧
    (∀ (v : MemValves) (st : MemState) (u : Option User) (hits : Option (List MemHit))
       (fo : Bool), (mem_inlet v st b u hits fo).1 = b) ∧
    (∀ (v : MemPValves) (st : MemPState) (ma tho : Bool) (sh : Option String),
       (mem0p_inlet v st b ma tho sh).1 = b) ∧
    (∀ (av ci : Bool) (v : LFValves) (hf : String → String) (st : LFState)
       (u : Option User) (t : ℚ) (tok gok : Bool),
       (lf_inlet av ci v hf st b u t tok gok).1 = b) ∧
    (∀ (av ci : Bool) (v : LFValves) (hf : String → String) (st : LFState)
       (u : Option User) (t : ℚ) (fin : Bool), (lf_outlet av ci v hf st b u t fin).1 = b) := by
  refine ⟨?_, ?_, ?_, ?_, ?_, ?_⟩
  · intro v api; simp [perplexity_inlet, h]
  · intro v; rfl
  · intro v st u hits fo; simp [mem_inlet, h]
  · intro v st ma tho sh; simp [mem0p_inlet, h]
  · intro av ci v hf st u t tok gok
    unfold lf_inlet
    split
    · rfl
    · split <;> rfl
  · intro av ci v hf st u t fin
    unfold lf_outlet
    split
    · rfl
    · dsimp only
      cases lookupKV st.active_traces (get_conversation_id v hf b u t) with
      | none => rfl
      | some td =>
          dsimp only
          cases td.generation with
          | none => rfl
          | some g => cases fin <;> rfl

/-- C2 witness: the empty envelope through each hook at a concrete
configuration. -/
theorem C2_empty_messages_unchanged_witness :
    perplexity_inlet {} {} none = ({} : Body) ∧
    perplexity_outlet {} {} = ({} : Body) ∧
    (mem_inlet {} {} {} none none true).1 = ({} : Body) ∧
    (mem0p_inlet {} {} {} true true none).1 = ({} : Body) ∧
    (lf_inlet true true {} id {} {} none 0 true true).1 = ({} : Body) ∧
    (lf_outlet true true {} id {} {} none 0 true).1 = ({} : Body) := by
  have h := C2_empty_messages_unchanged {} rfl
  exact ⟨h.1 {} none, h.2.1 {}, h.2.2.1 {} {} none none true, h.2.2.2.1 {} {} true true none,
         h.2.2.2.2.1 true true {} id {} none 0 true true,
         h.2.2.2.2.2 true true {} id {} none 0 true⟩

/-- C7: conversation id resolution is deterministic for a fixed envelope and
user record within the same second (same floored timestamp); an explicit
(truthy) `conversation_id` in the envelope is always returned, and when the
envelope carries no truthy `conversation_id` but a truthy `chat_id`, that
`chat_id` is returned — either explicit identifier is preferred over
synthesis from user id and timestamp. -/
theorem C7_conversation_id_resolution (v : LFValves) (hf : String → String) (b : Body)
    (u : Option User) :
    (∀ t1 t2 : ℚ, ⌊t1⌋ = ⌊t2⌋ →
       get_conversation_id v hf b u t1 = get_conversation_id v hf b u t2) ∧
    (∀ (t : ℚ) (c : String), b.conversation_id = some c → c ≠ "" →
       get_conversation_id v hf b u t = c) ∧
    (∀ (t : ℚ) (c : String), truthyStr b.conversation_id = none → b.chat_id = some c →
       c ≠ "" → get_conversation_id v hf b u t = c) := by
  refine ⟨?_, ?_, ?_⟩
  · intro t1 t2 ht
    unfold get_conversation_id
    cases orTruthy b.conversation_id b.chat_id with
    | some c => rfl
    | none => rw [ht]
  · intro t c hc hne
    unfold get_conversation_id
    have : orTruthy b.conversation_id b.chat_id = some c := by
      rw [hc]
      simp [orTruthy, truthyStr, hne]
    rw [this]
  · intro t c hconv hc hne
    unfold get_conversation_id
    have : orTruthy b.conversation_id b.chat_id = some c := by
      rw [orTruthy, hconv, hc]
      simp [truthyStr, hne]
    rw [this]

/-- C7 witness: an explicit `conversation_id` is returned as the key, a
`chat_id` is returned when no `conversation_id` is present, and two
synthesized keys within the same second coincide. -/
theorem C7_conversation_id_resolution_witness :
    get_conversation_id {} id { conversation_id := some "chat-42" } none 7 = "chat-42" ∧
    get_conversation_id {} id { chat_id := some "room-7" } none 7 = "room-7" ∧
    get_conversation_id {} id {} (some { id := some "alice" }) (3/2 : ℚ) =
      get_conversation_id {} id {} (some { id := some "alice" }) (5/3 : ℚ) :=
  ⟨(C7_conversation_id_resolution {} id { conversation_id := some "chat-42" } none).2.1 7
      "chat-42" rfl (by decide),
   (C7_conversation_id_resolution {} id { chat_id := some "room-7" } none).2.2 7
      "room-7" rfl rfl (by decide),
   (C7_conversation_id_resolution {} id {} (some { id := some "alice" })).1 (3/2) (5/3)
      (by norm_num)⟩

/-- C8 counterexample: the Search Augmentation Filter's inbound hook on a
string-typed body that is not valid JSON raises (`json.loads` runs outside
any try/except block), so not every filter hook returns without an exception
for every string-typed body. -/
theorem C8_counterexample :
    perplexity_inlet_raw {} (PyVal.strv "not json") none =
      Except.error "json.loads: JSONDecodeError" := rfl

/-- C8 amended: the Observability Filter's inbound and outbound hooks, the
robust Memory Filter's inbound hook, and the Search Augmentation Filter's
outbound hook tolerate every string-typed body (the outbound search hook
does no parsing, the others catch parse failures and return a value without
raising), while the Search Augmentation Filter's and basic Memory Filter's
inbound hooks parse the string outside any exception handler and raise on a
string that is not valid JSON.  (The two memory filters define no outbound
hook.) -/
theorem C8_string_bodies_amended :
    (∀ (av ci : Bool) (v : LFValves) (hf : String → String) (st : LFState) (s : String)
       (u : Option User) (t : ℚ) (tok gok : Bool),
       ∃ y, lf_inlet_raw av ci v hf st (PyVal.strv s) u t tok gok = Except.ok y) ∧
    (∀ (v : MemPValves) (st : MemPState) (s : String) (ma tho : Bool) (sh : Option String),
       ∃ y, mem0p_inlet_raw v st (PyVal.strv s) ma tho sh = Except.ok y) ∧
    (∀ (v : SearchValves) (x : PyVal), perplexity_outlet_raw v x = Except.ok x) ∧
    (∀ (av ci : Bool) (v : LFValves) (hf : String → String) (st : LFState) (s : String)
       (u : Option User) (t : ℚ) (fin : Bool),
       ∃ y, lf_outlet_raw av ci v hf st (PyVal.strv s) u t fin = Except.ok y) ∧
    (∀ (v : SearchValves) (s : String) (api : Option SearchResult),
       json_loads s = none →
       perplexity_inlet_raw v (PyVal.strv s) api = Except.error "json.loads: JSONDecodeError") ∧
    (∀ (v : MemValves) (st : MemState) (s : String) (u : Option User)
       (hits : Option (List MemHit)) (fo : Bool),
       json_loads s = none →
       mem_inlet_raw v st (PyVal.strv s) u hits fo =
         Except.error "json.loads: JSONDecodeError") := by
  refine ⟨?_, ?_, ?_, ?_, ?_, ?_⟩
  · intro av ci v hf st s u t tok gok
    unfold lf_inlet_raw
    split
    · exact ⟨_, rfl⟩
    · dsimp only
      cases json_loads s with
      | none => exact ⟨_, rfl⟩
      | some j =>
          dsimp only
          cases jsonToBody j with
          | none => exact ⟨_, rfl⟩
          | some b => exact ⟨_, rfl⟩
  · intro v st s ma tho sh
    unfold mem0p_inlet_raw
    dsimp only
    cases json_loads s with
    | none => exact ⟨_, rfl⟩
    | some j =>
        dsimp only
        cases jsonToBody j with
        | none => exact ⟨_, rfl⟩
        | some b => exact ⟨_, rfl⟩
  · intro v x; rfl
  · intro av ci v hf st s u t fin
    unfold lf_outlet_raw
    split
    · exact ⟨_, rfl⟩
    · dsimp only
      cases json_loads s with
      | none => exact ⟨_, rfl⟩
      | some j =>
          dsimp only
          cases jsonToBody j with
          | none => exact ⟨_, rfl⟩
          | some b => exact ⟨_, rfl⟩
  · intro v s api hp
    unfold perplexity_inlet_raw
    dsimp only
    rw [hp]
  · intro v st s u hits fo hp
    unfold mem_inlet_raw
    dsimp only
    rw [hp]

/-- C8 witness: on the concrete invalid string "not json" the tolerant
inbound and outbound hooks return without raising and the unprotected
inbound hooks raise. -/
theorem C8_string_bodies_amended_witness :
    (∃ y, lf_inlet_raw true true {} id {} (PyVal.strv "not json") none 0 true true =
      Except.ok y) ∧
    (∃ y, mem0p_inlet_raw {} {} (PyVal.strv "not json") true true none = Except.ok y) ∧
    perplexity_outlet_raw {} (PyVal.strv "not json") = Except.ok (PyVal.strv "not json") ∧
    (∃ y, lf_outlet_raw true true {} id {} (PyVal.strv "not json") none 0 true =
      Except.ok y) ∧
    perplexity_inlet_raw {} (PyVal.strv "not json") none =
      Except.error "json.loads: JSONDecodeError" ∧
    mem_inlet_raw {} {} (PyVal.strv "not json") none none true =
      Except.error "json.loads: JSONDecodeError" :=
  ⟨C8_string_bodies_amended.1 true true {} id {} "not json" none 0 true true,
   C8_string_bodies_amended.2.1 {} {} "not json" true true none,
   C8_string_bodies_amended.2.2.1 {} (PyVal.strv "not json"),
   C8_string_bodies_amended.2.2.2.1 true true {} id {} "not json" none 0 true,
   C8_string_bodies_amended.2.2.2.2.1 {} "not json" none rfl,
   C8_string_bodies_amended.2.2.2.2.2 {} {} "not json" none none true rfl⟩

/-- C9 counterexample: when the inbound hook's generation creation fails
(`_create_generation` returns `None`), the outbound hook for the same
conversation id returns early without deleting the bookkeeping entries, so
both `start_times` and `active_traces` retain the id after outbound ran. -/
theorem C9_counterexample :
    (lookupKV ((lf_outlet true true {} id
        ((lf_inlet true true {} id {} c9Body none 10 true false).2)
        c9Body none 11 true).2).start_times "c1" = some 10) ∧
    (lookupKV ((lf_outlet true true {} id
        ((lf_inlet true true {} id {} c9Body none 10 true false).2)
        c9Body none 11 true).2).active_traces "c1" ≠ none) := by
  refine ⟨by decide, by decide⟩

/-- C9 amended: when tracking is enabled, the inbound hook successfully
created its trace and generation for a conversation id, and the outbound
hook that resolves the same conversation id completes its finalization
(output extraction and `generation.end`) without an exception, then that
outbound call removes the id from both `active_traces` and `start_times`;
when generation creation failed the entries may be retained (see the
counterexample), and an exception during finalization also skips the
deletions. -/
theorem C9_outlet_cleans_maps (v : LFValves) (hf : String → String) (st0 : LFState)
    (b1 b2 : Body) (u1 u2 : Option User) (t1 t2 : ℚ)
    (hen : v.enable_tracking = true)
    (hcid : get_conversation_id v hf b2 u2 t2 = get_conversation_id v hf b1 u1 t1) :
    lookupKV ((lf_outlet true true v hf
        ((lf_inlet true true v hf st0 b1 u1 t1 true true).2) b2 u2 t2 true).2).active_traces
      (get_conversation_id v hf b1 u1 t1) = none ∧
    lookupKV ((lf_outlet true true v hf
        ((lf_inlet true true v hf st0 b1 u1 t1 true true).2) b2 u2 t2 true).2).start_times
      (get_conversation_id v hf b1 u1 t1) = none := by
  have htr : should_track true v true = true := by simp [should_track, hen]
  unfold lf_inlet lf_outlet
  rw [htr, hcid]
  simp only [Bool.true_eq_false, if_false, if_true, lookupKV_insertKV_self]
  exact ⟨lookupKV_eraseKV_self _ _, lookupKV_eraseKV_self _ _⟩

/-- C9 witness: a successful inbound/outbound turn for conversation id "c1"
leaves no entry in either map. -/
theorem C9_outlet_cleans_maps_witness :
    lookupKV ((lf_outlet true true {} id
        ((lf_inlet true true {} id {} c9Body none 10 true true).2)
        c9Body none 11 true).2).active_traces "c1" = none ∧
    lookupKV ((lf_outlet true true {} id
        ((lf_inlet true true {} id {} c9Body none 10 true true).2)
        c9Body none 11 true).2).start_times "c1" = none :=
  C9_outlet_cleans_maps {} id {} c9Body c9Body none none 10 11 rfl rfl

/-- C10 counterexample: two runs of the Memory Enrichment Filter that differ
only in the message sent under a different session (envelope conversation id
"B", user "bob") flush different contents for session "A"'s turns — the
pending buffer is shared across sessions, so one session's inbound calls do
change another session's flushed contents. -/
theorem C10_counterexample :
    (mem_run {} [(bodyA1, userAlice), (bodyB1, userBob), (bodyA2, userAlice)] {}).flushed.map
      Prod.fst ≠
    (mem_run {} [(bodyA1, userAlice), (bodyB2, userBob), (bodyA2, userAlice)] {}).flushed.map
      Prod.fst := by
  decide

/-- C10 amended: pending utterances are held in a single per-filter-instance
buffer shared by all sessions — an inbound call appends its last message text
to that one list regardless of session id or user record (below the
threshold the resulting state is identical for any two user records), so
another session's inbound calls can change the contents flushed for a
session. -/
theorem C10_shared_buffer_amended (v : MemValves) (st : MemState) (b : Body)
    (u1 u2 : Option User) (hits : Option (List MemHit)) (fo : Bool)
    (hst : v.enable_memory_storage = true)
    (hne : b.messages ≠ [])
    (hlt : st.user_messages.length + 1 < v.store_cycles) :
    (mem_inlet v st b u1 hits fo).2.user_messages = st.user_messages ++ [lastContent b] ∧
    (mem_inlet v st b u1 hits fo).2 = (mem_inlet v st b u2 hits fo).2 := by
  obtain ⟨m, hm⟩ : ∃ m, b.messages.getLast? = some m := by
    cases hgl : b.messages.getLast? with
    | none => exact absurd (List.getLast?_eq_none_iff.mp hgl) hne
    | some m => exact ⟨m, rfl⟩
  have hlc : lastContent b = m.content := by simp [lastContent, hm]
  have hlt' : ¬ v.store_cycles ≤ st.user_messages.length + 1 := by omega
  constructor
  · simp [mem_inlet, hm, hst, hlt', hlc]
  · simp [mem_inlet, hm, hst, hlt']

/-- C10 witness: below the flush threshold, a call appends the message text
to the shared buffer and the resulting state does not depend on the user
record. -/
theorem C10_shared_buffer_amended_witness :
    (mem_inlet {} {} bodyA1 userAlice none true).2.user_messages =
      [] ++ [lastContent bodyA1] ∧
    (mem_inlet {} {} bodyA1 userAlice none true).2 =
      (mem_inlet {} {} bodyA1 userBob none true).2 :=
  C10_shared_buffer_amended {} {} bodyA1 userAlice userBob none true rfl
    (by decide) (by decide)

end NumberOneOWU
